import Mathlib

/-!
Shallow embedding of the web-fetch-mcp repository (TypeScript) in Lean 4.

The embedding models the cheerio-parsed HTML document as an abstract `Doc`
record carrying exactly the data the source queries (element ids, meta tags,
anchors, images, scripts, body text, the raw HTML string for the regex-based
hydration tests), and translates each source function over that record.
JavaScript numbers are modelled as `ℚ` (all arithmetic in the classifier is
exact decimal arithmetic on small values, where binary floating point and `ℚ`
agree), optional values as `Option`, and JS truthiness explicitly.
-/

namespace WebFetch

/-- JS `x || undefined` on an optional string: the empty string is falsy. -/
def jsFalsy : Option String → Option String
  | some "" => none
  | o => o

/-- JS `a || d` where `a` is an optional string and `d` a string default. -/
def jsOrElse (o : Option String) (d : String) : String :=
  match o with
  | some s => if s = "" then d else s
  | none => d

/-- JS truthiness of an optional numeric argument: `undefined` and `0` are falsy. -/
def jsTruthyNat : Option Nat → Bool
  | some n => n != 0
  | none => false

/-- JS `Math.round`: round half toward positive infinity. -/
def jsRound (q : ℚ) : ℤ := ⌊q + 1 / 2⌋

/-- `Math.round(confidence * 100) / 100` from the source. -/
def round2 (q : ℚ) : ℚ := (jsRound (q * 100) : ℚ) / 100

/-- The characters matched by the regex class `\s` (and trimmed by `trim`). -/
def jsWhitespace (c : Char) : Bool :=
  c == ' ' || c == '\t' || c == '\n' || c == '\r' || c == '\x0b' || c == '\x0c' || c == ' '

/-- JS `String.prototype.trim` on a character list. -/
def trimChars (l : List Char) : List Char :=
  ((l.dropWhile jsWhitespace).reverse.dropWhile jsWhitespace).reverse

/-- JS `String.prototype.trim`. -/
def trimStr (s : String) : String := ⟨trimChars s.data⟩

/-- Lower-case a string character-wise (JS `toLowerCase` on the ASCII range used here). -/
def lowerStr (s : String) : String := ⟨s.data.map Char.toLower⟩

/-- Contiguous-subsequence test on character lists (substring containment). -/
def containsSeq (pat : List Char) : List Char → Bool
  | [] => pat.isEmpty
  | c :: cs => pat.isPrefixOf (c :: cs) || containsSeq pat cs

/-- JS `String.prototype.includes` (substring containment). -/
def containsStr (s sub : String) : Bool := containsSeq sub.data s.data

/-- One `meta` tag: the attributes the source reads. -/
structure MetaTag where
  nameAttr : Option String := none
  propAttr : Option String := none
  content : Option String := none
  href : Option String := none
  charset : Option String := none
deriving Repr, DecidableEq

/-- One `link` tag: the attributes the source reads. -/
structure LinkTag where
  rel : Option String := none
  href : Option String := none
deriving Repr, DecidableEq

/-- One anchor (`a`) element: href attribute, title attribute, text content. -/
structure Anchor where
  href : Option String := none
  titleAttr : Option String := none
  text : String := ""
deriving Repr, DecidableEq

/-- One `img` element: src, alt and title attributes. -/
structure ImgTag where
  src : Option String := none
  alt : Option String := none
  titleAttr : Option String := none
deriving Repr, DecidableEq

/-- Abstract cheerio-parsed document: each field is what one of the source's
queries reads off the parsed HTML, in document order. `raw` is the HTML string
itself, used by the regex tests that run on the unparsed input. -/
structure Doc where
  raw : String := ""
  title : String := ""
  elemIds : List String := []
  metas : List MetaTag := []
  linkTags : List LinkTag := []
  anchors : List Anchor := []
  imgs : List ImgTag := []
  scripts : List (Option String) := []
  noscriptText : String := ""
  bodyTextRaw : String := ""
  bodyChildren : Nat := 0
  hasReactRoot : Bool := false
  hasReactId : Bool := false
  hasServerRendered : Bool := false
  ngVersion : Option String := none
deriving Repr

/-- Result record of `detectPageType` (both versions share the shape). -/
structure PageTypeResult where
  isDynamic : Bool
  confidence : ℚ
  hints : List String
  framework : Option String
deriving Repr, DecidableEq

/-- The mount-point identifiers probed by `detectPageType`. -/
def mountPoints : List String := ["root", "app", "__next", "nuxt", "__nuxt", "__NEXT"]

/-- `mountPoints.some((id) => $(hash id).length > 0 || $([id*=id]).length > 0)`:
an element with exactly that id, or any element whose id contains it. -/
def hasMountPoint (ids : List String) : Bool :=
  mountPoints.any fun m => (ids.any fun i => i == m) || (ids.any fun i => containsSeq m.data i.data)

/-- The hydration-data markers; each regex in the source is a literal string. -/
def hydrationPatterns : List String :=
  ["__NEXT_DATA__", "__NUXT__", "__INITIAL_STATE__", "__APOLLO_STATE__", "__REDUX_STATE__", "__VUE__"]

/-- `hydrationPatterns.filter((p) => p.test(html))`. -/
def hydrationMatches (raw : String) : List String :=
  hydrationPatterns.filter fun p => containsSeq p.data raw.data

/-- The alternatives of the generator regex, in their source order. -/
def frameworkAlts : List String :=
  ["Next.js", "Nuxt", "Gatsby", "Vite", "Astro", "SvelteKit", "Remix"]

/-- Case-insensitive "starts with" on character lists. -/
def ciStartsWith : List Char → List Char → Bool
  | [], _ => true
  | _ :: _, [] => false
  | p :: ps, c :: cs => (p.toLower == c.toLower) && ciStartsWith ps cs

/-- Try each regex alternative at the current position, in order; on success
return the matched slice of the input (the capture keeps the input's casing). -/
def frameworkMatchAt (l : List Char) : Option (List Char) :=
  frameworkAlts.findSome? fun a =>
    if ciStartsWith a.data l then some (l.take a.data.length) else none

/-- `generator.match(/(Next\.js|Nuxt|Gatsby|Vite|Astro|SvelteKit|Remix)/i)`:
leftmost position wins, then alternative order; returns capture group 1. -/
def findFrameworkMatch : List Char → Option String
  | [] => none
  | c :: cs =>
    match frameworkMatchAt (c :: cs) with
    | some m => some ⟨m⟩
    | none => findFrameworkMatch cs

/-- `$('meta[name="generator"]').attr("content") || ""`. -/
def generatorOf (doc : Doc) : String :=
  ((doc.metas.find? fun m => m.nameAttr == some "generator").bind MetaTag.content).getD ""

/-- Total byte length of inline scripts: `$(el).html()?.length || 0`, summed. -/
def scriptTotalLengthOf (doc : Doc) : Nat :=
  (doc.scripts.map fun h => (h.map String.length).getD 0).sum

/-- The noscript hint: lower-cased noscript text mentions both substrings. -/
def noscriptHintOf (doc : Doc) : Bool :=
  containsStr (lowerStr doc.noscriptText) "javascript" &&
    containsStr (lowerStr doc.noscriptText) "enable"

/-- The near-empty-body test shared by both classifier versions. -/
def emptyBodySignal (doc : Doc) : Bool :=
  doc.bodyChildren == 0 ||
    (doc.bodyChildren ≤ 2 && (trimStr doc.bodyTextRaw).length < 50)

/-- The framework-name ternary of the source, parsed with JS precedence:
`(frameworkMatch?.[1] || find(NEXT)) ? "Next.js" : find(NUXT) ? "Nuxt" : undefined`. -/
def detectedFrameworkOf (fw : Option String) (hyd : List String) : Option String :=
  if (match fw with | some s => s != "" | none => false) ||
      hyd.any (fun p => containsSeq "NEXT".data p.data) then
    some "Next.js"
  else if hyd.any (fun p => containsSeq "NUXT".data p.data) then
    some "Nuxt"
  else
    none

/-- The body-text/script-count signal: body text under 100 chars with 3+ scripts. -/
def fewTextManyScripts (doc : Doc) : Prop :=
  (trimStr doc.bodyTextRaw).length < 100 ∧ doc.scripts.length ≥ 3

instance (doc : Doc) : Decidable (fewTextManyScripts doc) := by
  unfold fewTextManyScripts; infer_instance

/-- The script-size signal: over 50000 bytes of inline script with little body text. -/
def bigScriptsLittleText (doc : Doc) : Prop :=
  scriptTotalLengthOf doc > 50000 ∧ (trimStr doc.bodyTextRaw).length < 500

instance (doc : Doc) : Decidable (bigScriptsLittleText doc) := by
  unfold bigScriptsLittleText; infer_instance

/-- The ordered diagnostic hints, identical in both classifier versions. -/
def hintsOf (doc : Doc) : List String :=
  (if hasMountPoint doc.elemIds then ["存在 SPA 挂载点"] else []) ++
  (if (hydrationMatches doc.raw).length > 0 then ["存在框架注水数据"] else []) ++
  (if doc.hasReactRoot || doc.hasReactId then ["React 标记"] else []) ++
  (if doc.hasServerRendered then ["Vue SSR 标记"] else []) ++
  (if doc.ngVersion.isSome then ["Angular 版本: " ++ doc.ngVersion.getD "undefined"] else []) ++
  (if (findFrameworkMatch (generatorOf doc).data).isSome then
    ["框架: " ++ (findFrameworkMatch (generatorOf doc).data).getD ""] else []) ++
  (if fewTextManyScripts doc then ["body 内容极少，脚本众多"] else []) ++
  (if bigScriptsLittleText doc then ["脚本体积远大于 body 文本"] else []) ++
  (if noscriptHintOf doc then ["noscript 提示启用 JavaScript"] else []) ++
  (if emptyBodySignal doc then ["body 几乎为空"] else [])

namespace WebScraper

/-- The accumulated signal score of `detectPageType` in `src/web-scraper.ts`:
mount-point weight 3, near-empty-body weight 3. -/
def score (doc : Doc) : Nat :=
  (if hasMountPoint doc.elemIds then 3 else 0) +
  (if (hydrationMatches doc.raw).length > 0 then (hydrationMatches doc.raw).length * 2 else 0) +
  (if doc.hasReactRoot || doc.hasReactId then 2 else 0) +
  (if doc.hasServerRendered then 1 else 0) +
  (if doc.ngVersion.isSome then 1 else 0) +
  (if (findFrameworkMatch (generatorOf doc).data).isSome then 2 else 0) +
  (if fewTextManyScripts doc then 2 else 0) +
  (if bigScriptsLittleText doc then 2 else 0) +
  (if noscriptHintOf doc then 1 else 0) +
  (if emptyBodySignal doc then 3 else 0)

/-- `detectPageType` from `src/web-scraper.ts`: weighted heuristic scoring with
`confidence = min(score / 10, 1)` and the inclusive threshold `confidence >= 0.3`. -/
def detectPageType (doc : Doc) : PageTypeResult :=
  let confidence : ℚ := min ((score doc : ℚ) / 10) 1
  { isDynamic := decide (confidence ≥ 3 / 10)
    confidence := round2 confidence
    hints := hintsOf doc
    framework := detectedFrameworkOf (findFrameworkMatch (generatorOf doc).data)
      (hydrationMatches doc.raw) }

end WebScraper

namespace FetchTs

/-- The accumulated signal score of `detectPageType` in `src/fetch.ts`:
mount-point weight 2, near-empty-body weight 1, other signals as in web-scraper. -/
def score (doc : Doc) : Nat :=
  (if hasMountPoint doc.elemIds then 2 else 0) +
  (if (hydrationMatches doc.raw).length > 0 then (hydrationMatches doc.raw).length * 2 else 0) +
  (if doc.hasReactRoot || doc.hasReactId then 2 else 0) +
  (if doc.hasServerRendered then 1 else 0) +
  (if doc.ngVersion.isSome then 1 else 0) +
  (if (findFrameworkMatch (generatorOf doc).data).isSome then 2 else 0) +
  (if fewTextManyScripts doc then 2 else 0) +
  (if bigScriptsLittleText doc then 2 else 0) +
  (if noscriptHintOf doc then 1 else 0) +
  (if emptyBodySignal doc then 1 else 0)

/-- `detectPageType` from `src/fetch.ts`: same signal set but with the lighter
weights above and the strict threshold `confidence > 0.3`. -/
def detectPageType (doc : Doc) : PageTypeResult :=
  let confidence : ℚ := min ((score doc : ℚ) / 10) 1
  { isDynamic := decide (confidence > 3 / 10)
    confidence := round2 confidence
    hints := hintsOf doc
    framework := detectedFrameworkOf (findFrameworkMatch (generatorOf doc).data)
      (hydrationMatches doc.raw) }

end FetchTs

/-- Signal scores are integers, so `min(score / 10, 1)` is a whole number of
hundredths and the two-decimal rounding step is the identity on it. -/
theorem round2_min_nat (s : ℕ) : round2 (min ((s : ℚ) / 10) 1) = min ((s : ℚ) / 10) 1 := by
  rcases le_total ((s : ℚ) / 10) 1 with h | h
  · rw [min_eq_left h]
    unfold round2 jsRound
    have hf : ⌊(s : ℚ) / 10 * 100 + 1 / 2⌋ = 10 * (s : ℤ) := by
      rw [Int.floor_eq_iff]
      constructor
      · push_cast
        linarith
      · push_cast
        linarith
    rw [hf]
    push_cast
    ring
  · rw [min_eq_right h]
    unfold round2 jsRound
    norm_num

theorem wsConfidence_eq (doc : Doc) :
    (WebScraper.detectPageType doc).confidence = min ((WebScraper.score doc : ℚ) / 10) 1 := by
  simp [WebScraper.detectPageType, round2_min_nat]

theorem ftConfidence_eq (doc : Doc) :
    (FetchTs.detectPageType doc).confidence = min ((FetchTs.score doc : ℚ) / 10) 1 := by
  simp [FetchTs.detectPageType, round2_min_nat]

/-- The web-scraper classifier reports dynamic exactly when the score reaches 3. -/
theorem wsIsDynamic_iff (doc : Doc) :
    (WebScraper.detectPageType doc).isDynamic = true ↔ 3 ≤ WebScraper.score doc := by
  simp only [WebScraper.detectPageType, ge_iff_le, decide_eq_true_eq]
  constructor
  · intro h
    have h1 : (3 : ℚ) / 10 ≤ (WebScraper.score doc : ℚ) / 10 := (le_min_iff.mp h).1
    have h2 : (3 : ℚ) ≤ (WebScraper.score doc : ℚ) := by linarith
    exact_mod_cast h2
  · intro h
    refine le_min ?_ (by norm_num)
    have h2 : (3 : ℚ) ≤ (WebScraper.score doc : ℚ) := by exact_mod_cast h
    linarith

/-- The fetch.ts classifier uses a strict comparison, so it reports dynamic
exactly when the score exceeds 3. -/
theorem ftIsDynamic_iff (doc : Doc) :
    (FetchTs.detectPageType doc).isDynamic = true ↔ 3 < FetchTs.score doc := by
  simp only [FetchTs.detectPageType, gt_iff_lt, decide_eq_true_eq]
  constructor
  · intro h
    have h1 : (3 : ℚ) / 10 < (FetchTs.score doc : ℚ) / 10 := (lt_min_iff.mp h).1
    have h2 : (3 : ℚ) < (FetchTs.score doc : ℚ) := by linarith
    exact_mod_cast h2
  · intro h
    refine lt_min ?_ (by norm_num)
    have h2 : (3 : ℚ) < (FetchTs.score doc : ℚ) := by exact_mod_cast h
    linarith

/-! ## Content extraction (`fetchPageSummary`, `fetchPageMetadata`, `fetchLinks`, `fetchPageText`) -/

/-- An extracted link `{title, href}`. -/
structure LinkEntry where
  title : String
  href : String
deriving Repr, DecidableEq

/-- An extracted image `{title, src}`. -/
structure ImageEntry where
  title : String
  src : String
deriving Repr, DecidableEq

/-- Anchor extraction shared by `fetchPageSummary` and `fetchLinks`: every
anchor with a truthy `href`, in document order, no deduplication; the label is
the anchor's `title` attribute if truthy, else its trimmed text content. -/
def extractLinks (doc : Doc) : List LinkEntry :=
  doc.anchors.filterMap fun a =>
    match a.href with
    | some h =>
      if h ≠ "" then some { title := jsOrElse a.titleAttr (trimStr a.text), href := h }
      else none
    | none => none

/-- Image extraction of `fetchPageSummary`: every `img` with a truthy `src`,
in document order; the label is `alt || title || ""`. -/
def extractImages (doc : Doc) : List ImageEntry :=
  doc.imgs.filterMap fun im =>
    match im.src with
    | some s =>
      if s ≠ "" then some { title := jsOrElse im.alt (jsOrElse im.titleAttr ""), src := s }
      else none
    | none => none

/-- The externally visible I/O steps of one extraction call, in program order. -/
inductive Effect where
  | fetchStatic
  | render
deriving Repr, DecidableEq

/-- Result shape of `fetchPageSummary`. -/
structure PageSummary where
  url : String
  title : String
  links : List LinkEntry
  images : List ImageEntry
deriving Repr, DecidableEq

structure SummaryCall where
  result : PageSummary
  effects : List Effect
deriving Repr, DecidableEq

/-- Result shape of `fetchPageMetadata`; optional fields stay `none` ("absent")
rather than becoming empty strings. -/
structure PageMetadata where
  charset : String
  title : String
  description : Option String
  keywords : Option String
  author : Option String
  canonical : Option String
  robots : Option String
  og_title : Option String
  og_description : Option String
  og_image : Option String
  og_url : Option String
  og_type : Option String
  og_site_name : Option String
  twitter_card : Option String
  twitter_image : Option String
  next : Option String
  prev : Option String
  alternate : Option String
deriving Repr, DecidableEq

structure MetadataCall where
  result : PageMetadata
  effects : List Effect
deriving Repr, DecidableEq

/-- `$('meta[name="n"]').attr("content") || undefined`: content attribute of
the first matching meta tag, with the empty string collapsing to absent. -/
def getMetaByName (doc : Doc) (n : String) : Option String :=
  jsFalsy ((doc.metas.find? fun m => m.nameAttr == some n).bind MetaTag.content)

/-- `attr("content") || attr("href") || undefined` on `meta[property="p"]`. -/
def getMetaByProperty (doc : Doc) (p : String) : Option String :=
  match jsFalsy ((doc.metas.find? fun m => m.propAttr == some p).bind MetaTag.content) with
  | some s => some s
  | none => jsFalsy ((doc.metas.find? fun m => m.propAttr == some p).bind MetaTag.href)

/-- `$('link[rel="r"]').attr("href") || undefined`. -/
def getLinkRel (doc : Doc) (r : String) : Option String :=
  jsFalsy ((doc.linkTags.find? fun lt => lt.rel == some r).bind LinkTag.href)

/-- `$("meta[charset]").attr("charset") || "utf-8"`. -/
def charsetOf (doc : Doc) : String :=
  jsOrElse ((doc.metas.find? fun m => m.charset.isSome).bind MetaTag.charset) "utf-8"

namespace WebScraper

/-- `fetchPageSummary(url, linkCount?, imageCount?)` from `src/web-scraper.ts`:
one static fetch, then title/link/image extraction; the caps are tested for JS
truthiness (`linkCount ? links.slice(0, linkCount) : links.slice(0, 10)`), so
an absent or zero cap means the default 10. Never renders. -/
def fetchPageSummary (url : String) (doc : Doc) (linkCount imageCount : Option Nat) :
    SummaryCall :=
  { result :=
    { url := url
      title := doc.title
      links :=
        match linkCount with
        | some n => if n ≠ 0 then (extractLinks doc).take n else (extractLinks doc).take 10
        | none => (extractLinks doc).take 10
      images :=
        match imageCount with
        | some n => if n ≠ 0 then (extractImages doc).take n else (extractImages doc).take 10
        | none => (extractImages doc).take 10 }
    effects := [Effect.fetchStatic] }

/-- `fetchPageMetadata(url)` from `src/web-scraper.ts`: one static fetch, then
the charset/SEO/Open Graph/Twitter/pagination fields. Never renders. -/
def fetchPageMetadata (doc : Doc) : MetadataCall :=
  { result :=
    { charset := charsetOf doc
      title := doc.title
      description := getMetaByName doc "description"
      keywords := getMetaByName doc "keywords"
      author := getMetaByName doc "author"
      canonical := getLinkRel doc "canonical"
      robots := getMetaByName doc "robots"
      og_title := getMetaByProperty doc "og:title"
      og_description := getMetaByProperty doc "og:description"
      og_image := getMetaByProperty doc "og:image"
      og_url := getMetaByProperty doc "og:url"
      og_type := getMetaByProperty doc "og:type"
      og_site_name := getMetaByProperty doc "og:site_name"
      twitter_card := getMetaByProperty doc "twitter:card"
      twitter_image := getMetaByProperty doc "twitter:image"
      next := getLinkRel doc "next"
      prev := getLinkRel doc "prev"
      alternate := getLinkRel doc "alternate" }
    effects := [Effect.fetchStatic] }

end WebScraper

/-! ## Text normalization pipeline of `fetchPageText` -/

/-- Fuel-indexed worker for `replaceAll`; the fuel starts at the input length
and each step consumes at least one character, so it never runs out. -/
def replaceAllAux (p repl : List Char) : Nat → List Char → List Char
  | _, [] => []
  | 0, l => l
  | fuel + 1, c :: cs =>
    if p.isPrefixOf (c :: cs) then repl ++ replaceAllAux p repl fuel ((c :: cs).drop p.length)
    else c :: replaceAllAux p repl fuel cs

/-- JS `String.replace(/pat/g, repl)` for a literal nonempty pattern: leftmost
match first, the replacement is not rescanned, scanning resumes after it. -/
def replaceAll (p repl l : List Char) : List Char :=
  match p with
  | [] => l
  | _ :: _ => replaceAllAux p repl l.length l

/-- The character class `[A-Z_]` of the hydration-variable regex. -/
def isUpperUnder (c : Char) : Bool :=
  (decide ('A' ≤ c) && decide (c ≤ 'Z')) || c == '_'

/-- The character class `["']` (both quote kinds). -/
def isQuoteChar (c : Char) : Bool := c == '"' || c == Char.ofNat 39

/-- Match `window\.__VP_[A-Z_]+__\s*=\s*JSON\.parse\(["'][^"']+["']\);?` at the
start of `l`, returning the remainder after the match. The greedy `[A-Z_]+`
followed by the literal `__` succeeds exactly when the maximal `[A-Z_]` run has
length at least 3 and ends in two underscores, and the greedy `[^"']+` must end
exactly at the next quote character. -/
def matchVP (l : List Char) : Option (List Char) :=
  if "window.__VP_".data.isPrefixOf l then
    let r1 := l.drop "window.__VP_".data.length
    let run := r1.takeWhile isUpperUnder
    if 3 ≤ run.length ∧ ['_', '_'].isSuffixOf run then
      match (r1.dropWhile isUpperUnder).dropWhile jsWhitespace with
      | '=' :: r4 =>
        let r5 := r4.dropWhile jsWhitespace
        if "JSON.parse(".data.isPrefixOf r5 then
          match r5.drop "JSON.parse(".data.length with
          | q :: r7 =>
            if isQuoteChar q then
              if 1 ≤ (r7.takeWhile fun c => !isQuoteChar c).length then
                match r7.dropWhile fun c => !isQuoteChar c with
                | _ :: ')' :: r9 =>
                  match r9 with
                  | ';' :: r10 => some r10
                  | _ => some r9
                | _ => none
              else none
            else none
          | [] => none
        else none
      | _ => none
    else none
  else none

/-- Fuel-indexed worker for `stripVP`. -/
def stripVPAux : Nat → List Char → List Char
  | _, [] => []
  | 0, l => l
  | fuel + 1, c :: cs =>
    match matchVP (c :: cs) with
    | some rest => stripVPAux fuel rest
    | none => c :: stripVPAux fuel cs

/-- Deletion of every hydration-variable assignment statement (the
`window.__VP_...` regex replaced by the empty string, globally). -/
def stripVP (l : List Char) : List Char := stripVPAux l.length l

/-- Fuel-indexed worker for `collapseNewlineWs`. -/
def collapseNewlineWsAux : Nat → List Char → List Char
  | _, [] => []
  | 0, l => l
  | fuel + 1, c :: cs =>
    if jsWhitespace c then
      (if ((c :: cs).takeWhile jsWhitespace).contains '\n' then ['\n']
        else (c :: cs).takeWhile jsWhitespace) ++
        collapseNewlineWsAux fuel ((c :: cs).dropWhile jsWhitespace)
    else c :: collapseNewlineWsAux fuel cs

/-- JS `replace(/\s*\n\s*/g, "\n")`: by greediness each maximal whitespace run
containing a newline is one match, replaced by a single newline; whitespace
runs without a newline are untouched. -/
def collapseNewlineWs (l : List Char) : List Char := collapseNewlineWsAux l.length l

/-- Fuel-indexed worker for `collapseManyNewlines`. -/
def collapseManyNewlinesAux : Nat → List Char → List Char
  | _, [] => []
  | 0, l => l
  | fuel + 1, c :: cs =>
    if c == '\n' then
      (if 3 ≤ ((c :: cs).takeWhile (· == '\n')).length then ['\n', '\n']
        else (c :: cs).takeWhile (· == '\n')) ++
        collapseManyNewlinesAux fuel ((c :: cs).dropWhile (· == '\n'))
    else c :: collapseManyNewlinesAux fuel cs

/-- JS `replace(/\n{3,}/g, "\n\n")`: maximal newline runs of length three or
more become exactly two newlines. -/
def collapseManyNewlines (l : List Char) : List Char := collapseManyNewlinesAux l.length l

/-- The character class `[ \t]`. -/
def isSpaceTab (c : Char) : Bool := c == ' ' || c == '\t'

/-- Fuel-indexed worker for `collapseSpaceTab`. -/
def collapseSpaceTabAux : Nat → List Char → List Char
  | _, [] => []
  | 0, l => l
  | fuel + 1, c :: cs =>
    if isSpaceTab c then
      ' ' :: collapseSpaceTabAux fuel ((c :: cs).dropWhile isSpaceTab)
    else c :: collapseSpaceTabAux fuel cs

/-- JS `replace(/[ \t]+/g, " ")`: maximal space/tab runs become one space. -/
def collapseSpaceTab (l : List Char) : List Char := collapseSpaceTabAux l.length l

/-- The text-normalization pipeline of `fetchPageText`, applied in source
order: unescape `\"`, `\\`, `\n`, `\t`; strip hydration-variable assignments;
collapse whitespace around newlines; collapse 3-or-more newlines to two;
collapse horizontal whitespace runs; trim. -/
def normalizeChars (l : List Char) : List Char :=
  trimChars (collapseSpaceTab (collapseManyNewlines (collapseNewlineWs (stripVP
    (replaceAll ['\\', 't'] ['\t'] (replaceAll ['\\', 'n'] ['\n']
      (replaceAll ['\\', '\\'] ['\\'] (replaceAll ['\\', '"'] ['"'] l))))))))

/-- String wrapper of the pipeline. -/
def normalizeText (s : String) : String := ⟨normalizeChars s.data⟩

namespace WebScraper

/-- Result shape of `fetchLinks`, with the render decision and effect trace. -/
structure LinksCall where
  links : List LinkEntry
  usedHeadless : Bool
  effects : List Effect
deriving Repr, DecidableEq

/-- `fetchLinks(url, forceHeadless?)` from `src/web-scraper.ts`: static fetch,
classify, decide `forceHeadless ?? pageType.isDynamic`, render if and only if
the decision is true, then extract every anchor (no truncation). `staticDoc`
is the statically fetched document, `renderedDoc` the document the headless
browser would produce for the same URL. -/
def fetchLinks (staticDoc renderedDoc : Doc) (forceHeadless : Option Bool) : LinksCall :=
  let pageType := detectPageType staticDoc
  let useHeadless := forceHeadless.getD pageType.isDynamic
  let finalDoc := if useHeadless then renderedDoc else staticDoc
  { links := extractLinks finalDoc
    usedHeadless := useHeadless
    effects := Effect.fetchStatic :: (if useHeadless then [Effect.render] else []) }

/-- Result shape of `fetchPageText`. -/
structure TextCall where
  text : String
  usedHeadless : Bool
  effects : List Effect
deriving Repr, DecidableEq

/-- `fetchPageText(url, forceHeadless?)` from `src/web-scraper.ts`: same
render decision as `fetchLinks`, then the normalized body text of whichever
document was selected. -/
def fetchPageText (staticDoc renderedDoc : Doc) (forceHeadless : Option Bool) : TextCall :=
  let pageType := detectPageType staticDoc
  let useHeadless := forceHeadless.getD pageType.isDynamic
  let finalDoc := if useHeadless then renderedDoc else staticDoc
  { text := normalizeText finalDoc.bodyTextRaw
    usedHeadless := useHeadless
    effects := Effect.fetchStatic :: (if useHeadless then [Effect.render] else []) }

end WebScraper

/-! ## Browser session manager (`browser.ts`) -/

/-- Program counter of one `getBrowser` caller, split at its `await` point:
`check` — about to run the synchronous `browser === null || !browser.connected`
test; `launching` — suspended inside `await createBrowser(config)`;
`done` — returned. -/
inductive CallerPc where
  | check
  | launching
  | done
deriving Repr, DecidableEq

/-- The module-level mutable state of `browser.ts` (`let browser = null`),
instrumented with a count of `puppeteer.launch` calls, plus the program
counters of two concurrent `getBrowser` callers. A stored browser is modelled
as always connected, so the guard reduces to the null test. -/
structure BrowserState where
  browser : Option Nat := none
  launches : Nat := 0
  pc0 : CallerPc := CallerPc.check
  pc1 : CallerPc := CallerPc.check
deriving Repr, DecidableEq

def pcOf (s : BrowserState) (t : Bool) : CallerPc :=
  if t then s.pc1 else s.pc0

def setPc (s : BrowserState) (t : Bool) (p : CallerPc) : BrowserState :=
  if t then { s with pc1 := p } else { s with pc0 := p }

/-- One atomic step of caller `t`, at the granularity of the `await` in
`getBrowser`: the guard test is one synchronous step, and the completion of
`createBrowser` together with the assignment `browser = result.browser` is the
next. A caller that sees a live session takes the `newPage` path and launches
nothing. -/
def browserStep (s : BrowserState) (t : Bool) : BrowserState :=
  match pcOf s t with
  | CallerPc.check =>
    if s.browser = none then setPc s t CallerPc.launching
    else setPc s t CallerPc.done
  | CallerPc.launching =>
    setPc { s with launches := s.launches + 1, browser := some s.launches } t CallerPc.done
  | CallerPc.done => s

/-- Run a cooperative schedule (a list of caller ids) from a state. -/
def runSched (sched : List Bool) (s : BrowserState) : BrowserState :=
  sched.foldl browserStep s

/-! ## No blank line survives the normalization pipeline -/

/-- No two adjacent newline characters (hence no blank line at all). -/
def NoAdjacentNewlines (l : List Char) : Prop :=
  l.Chain' fun a b => ¬(a = '\n' ∧ b = '\n')

theorem head?_dropWhile_eq_some {p : Char → Bool} {l : List Char} {d : Char}
    (h : (l.dropWhile p).head? = some d) : p d = false := by
  have hd := List.head?_dropWhile_not p l
  rw [h] at hd
  exact hd

theorem chain'_of_no_newline {l : List Char} (h : '\n' ∉ l) :
    l.Chain' fun a b => ¬(a = '\n' ∧ b = '\n') := by
  induction l with
  | nil => exact List.chain'_nil
  | cons a t ih =>
    rw [List.chain'_cons']
    refine ⟨fun y _ hy => ?_, ih fun hm => h (List.mem_cons_of_mem a hm)⟩
    exact h (hy.1 ▸ List.mem_cons_self a t)

theorem collapseNewlineWsAux_head (fuel : ℕ) {l : List Char} {c : Char}
    (h1 : l.head? = some c) (h2 : jsWhitespace c = false) :
    (collapseNewlineWsAux fuel l).head? = some c := by
  cases l with
  | nil => simp at h1
  | cons d ds =>
    rw [List.head?_cons, Option.some.injEq] at h1
    subst h1
    cases fuel with
    | zero => rfl
    | succ n => simp [collapseNewlineWsAux, h2]

theorem noAdjacentNewlines_collapseNewlineWsAux :
    ∀ (fuel : ℕ) (l : List Char), l.length ≤ fuel →
      NoAdjacentNewlines (collapseNewlineWsAux fuel l) := by
  intro fuel
  induction fuel with
  | zero =>
    intro l hl
    rw [Nat.le_zero, List.length_eq_zero] at hl
    subst hl
    exact List.chain'_nil
  | succ n ih =>
    intro l hl
    cases l with
    | nil => exact List.chain'_nil
    | cons c cs =>
      by_cases hw : jsWhitespace c = true
      · have hrest : (c :: cs).dropWhile jsWhitespace = cs.dropWhile jsWhitespace :=
          List.dropWhile_cons_of_pos hw
        have hlen : (cs.dropWhile jsWhitespace).length ≤ n := by
          have := (List.dropWhile_suffix (l := cs) jsWhitespace).length_le
          have hcs : cs.length ≤ n := Nat.le_of_succ_le_succ hl
          omega
        have hrec := ih (cs.dropWhile jsWhitespace) hlen
        have hbound : ∀ x, ∀ y ∈ (collapseNewlineWsAux n (cs.dropWhile jsWhitespace)).head?,
            ¬(x = '\n' ∧ y = '\n') := by
          intro x y hy hxy
          cases hh : (cs.dropWhile jsWhitespace).head? with
          | none =>
            cases hdw : cs.dropWhile jsWhitespace with
            | nil => rw [hdw] at hy; cases fuelCase : n <;> simp [collapseNewlineWsAux] at hy
            | cons a t => rw [hdw] at hh; simp at hh
          | some d =>
            have hd : jsWhitespace d = false := head?_dropWhile_eq_some hh
            have := collapseNewlineWsAux_head n hh hd
            rw [this] at hy
            rw [Option.mem_some_iff] at hy
            subst hy
            exact absurd (hxy.2 ▸ hd) (by decide)
        simp only [collapseNewlineWsAux, hw, if_true, hrest]
        refine List.Chain'.append ?_ hrec ?_
        · by_cases hc : ((c :: cs).takeWhile jsWhitespace).contains '\n' = true
          · simp only [hc, if_true]
            exact List.chain'_singleton '\n'
          · simp only [hc, if_false]
            refine chain'_of_no_newline fun hm => ?_
            rw [Bool.not_eq_true, ← Bool.not_eq_true] at hc
            exact hc (List.elem_iff.mpr hm)
        · intro x hx y hy
          by_cases hc : ((c :: cs).takeWhile jsWhitespace).contains '\n' = true
          · simp only [hc, if_true] at hx
            exact hbound x y hy
          · simp only [hc, if_false] at hx
            exact hbound x y hy
      · rw [Bool.not_eq_true] at hw
        simp only [collapseNewlineWsAux, hw, Bool.false_eq_true, if_false]
        refine List.chain'_cons'.mpr ⟨fun y _ hy => ?_, ih cs (Nat.le_of_succ_le_succ hl)⟩
        have : c ≠ '\n' := fun hcn => by rw [hcn] at hw; exact absurd hw (by decide)
        exact this hy.1

/-- The `\s*\n\s*` collapse leaves no two adjacent newlines. -/
theorem noAdjacentNewlines_collapseNewlineWs (l : List Char) :
    NoAdjacentNewlines (collapseNewlineWs l) :=
  noAdjacentNewlines_collapseNewlineWsAux l.length l (Nat.le_refl _)

theorem collapseManyNewlinesAux_of_noAdjacent :
    ∀ (fuel : ℕ) (l : List Char), l.length ≤ fuel → NoAdjacentNewlines l →
      collapseManyNewlinesAux fuel l = l := by
  intro fuel
  induction fuel with
  | zero =>
    intro l hl _
    rw [Nat.le_zero, List.length_eq_zero] at hl
    subst hl
    rfl
  | succ n ih =>
    intro l hl hch
    cases l with
    | nil => rfl
    | cons c cs =>
      by_cases hc : (c == '\n') = true
      · have hceq : c = '\n' := eq_of_beq hc
        have htail : cs.takeWhile (· == '\n') = [] := by
          cases cs with
          | nil => rfl
          | cons d ds =>
            have hd : (d == '\n') = false := by
              have hR := (List.chain'_cons.mp hch).1
              exact beq_eq_false_iff_ne.mpr fun h => hR ⟨hceq, h⟩
            exact List.takeWhile_cons_of_neg (by simp [hd])
        have hdrop : cs.dropWhile (· == '\n') = cs := by
          cases cs with
          | nil => rfl
          | cons d ds =>
            have hd : (d == '\n') = false := by
              have hR := (List.chain'_cons.mp hch).1
              exact beq_eq_false_iff_ne.mpr fun h => hR ⟨hceq, h⟩
            exact List.dropWhile_cons_of_neg (by simp [hd])
        simp only [collapseManyNewlinesAux, hc, if_true]
        rw [List.takeWhile_cons_of_pos (p := fun x => x == '\n') hc,
          List.dropWhile_cons_of_pos (p := fun x => x == '\n') hc, htail, hdrop,
          ih cs (Nat.le_of_succ_le_succ hl) hch.tail]
        norm_num
      · simp only [collapseManyNewlinesAux, hc, Bool.false_eq_true, if_false]
        rw [ih cs (Nat.le_of_succ_le_succ hl) hch.tail]

/-- With no two adjacent newlines in its input, the `\n{3,}` collapse is the
identity: no run of three newlines can exist. -/
theorem collapseManyNewlines_of_noAdjacent {l : List Char} (h : NoAdjacentNewlines l) :
    collapseManyNewlines l = l :=
  collapseManyNewlinesAux_of_noAdjacent l.length l (Nat.le_refl _) h

theorem collapseSpaceTabAux_head : ∀ (fuel : ℕ) (l : List Char) {y : Char},
    (collapseSpaceTabAux fuel l).head? = some y → y = ' ' ∨ l.head? = some y := by
  intro fuel l y h
  cases l with
  | nil => cases fuel <;> simp [collapseSpaceTabAux] at h
  | cons c cs =>
    cases fuel with
    | zero => exact Or.inr h
    | succ n =>
      by_cases hs : isSpaceTab c = true
      · simp only [collapseSpaceTabAux, hs, if_true, List.head?_cons, Option.some.injEq] at h
        exact Or.inl h.symm
      · simp only [collapseSpaceTabAux, hs, Bool.false_eq_true, if_false, List.head?_cons,
          Option.some.injEq] at h
        exact Or.inr (by rw [List.head?_cons, h])

theorem noAdjacentNewlines_collapseSpaceTabAux :
    ∀ (fuel : ℕ) (l : List Char), l.length ≤ fuel → NoAdjacentNewlines l →
      NoAdjacentNewlines (collapseSpaceTabAux fuel l) := by
  intro fuel
  induction fuel with
  | zero =>
    intro l hl _
    rw [Nat.le_zero, List.length_eq_zero] at hl
    subst hl
    exact List.chain'_nil
  | succ n ih =>
    intro l hl hch
    cases l with
    | nil => exact List.chain'_nil
    | cons c cs =>
      by_cases hs : isSpaceTab c = true
      · simp only [collapseSpaceTabAux, hs, if_true, List.dropWhile_cons_of_pos hs]
        refine List.chain'_cons'.mpr ⟨fun y _ hy => by simp at hy, ?_⟩
        have hlen : (cs.dropWhile isSpaceTab).length ≤ n := by
          have := (List.dropWhile_suffix (l := cs) isSpaceTab).length_le
          have hcs : cs.length ≤ n := Nat.le_of_succ_le_succ hl
          omega
        exact ih _ hlen (hch.suffix (List.dropWhile_suffix isSpaceTab |>.trans
          (List.suffix_cons c cs)))
      · simp only [collapseSpaceTabAux, hs, Bool.false_eq_true, if_false]
        refine List.chain'_cons'.mpr ⟨?_, ih cs (Nat.le_of_succ_le_succ hl) hch.tail⟩
        intro y hy hxy
        rcases collapseSpaceTabAux_head n cs hy with h1 | h1
        · rw [hxy.2] at h1
          exact absurd h1 (by decide)
        · cases cs with
          | nil => simp at h1
          | cons d ds =>
            rw [List.head?_cons, Option.some.injEq] at h1
            exact (List.chain'_cons.mp hch).1 ⟨hxy.1, h1 ▸ hxy.2⟩

theorem noAdjacentNewlines_collapseSpaceTab {l : List Char} (h : NoAdjacentNewlines l) :
    NoAdjacentNewlines (collapseSpaceTab l) :=
  noAdjacentNewlines_collapseSpaceTabAux l.length l (Nat.le_refl _) h

theorem noAdjacentNewlines_trimChars {l : List Char} (h : NoAdjacentNewlines l) :
    NoAdjacentNewlines (trimChars l) := by
  unfold NoAdjacentNewlines at h ⊢
  unfold trimChars
  have h1 := h.suffix (List.dropWhile_suffix jsWhitespace)
  have h2 := h1.imp fun a b hab => (fun hba => hab ⟨hba.2, hba.1⟩ :
    ¬(b = '\n' ∧ a = '\n'))
  have h3 := List.chain'_reverse.mpr h2
  have h4 := h3.suffix (List.dropWhile_suffix jsWhitespace)
  have h5 := h4.imp fun a b hab => (fun hba => hab ⟨hba.2, hba.1⟩ :
    ¬(b = '\n' ∧ a = '\n'))
  exact List.chain'_reverse.mpr h5

theorem data_mk (l : List Char) : (⟨l⟩ : String).data = l := rfl

theorem data_normalizeText (s : String) :
    (normalizeText s).data = normalizeChars s.data := by
  unfold normalizeText
  exact data_mk _

theorem noAdjacentNewlines_normalizeChars (l : List Char) :
    NoAdjacentNewlines (normalizeChars l) := by
  unfold normalizeChars
  have h6 := noAdjacentNewlines_collapseNewlineWs (stripVP
    (replaceAll ['\\', 't'] ['\t'] (replaceAll ['\\', 'n'] ['\n']
      (replaceAll ['\\', '\\'] ['\\'] (replaceAll ['\\', '"'] ['"'] l)))))
  rw [collapseManyNewlines_of_noAdjacent h6]
  exact noAdjacentNewlines_trimChars (noAdjacentNewlines_collapseSpaceTab h6)

/-- The concrete C3 input: body text `Hello\\nWorld` (literal backslash-n)
followed by three blank lines and then `End`. -/
def c3Input : String := "Hello\\nWorld\n\n\n\nEnd"

theorem normalizeText_c3Input : normalizeText c3Input = "Hello\nWorld\nEnd" := by decide

theorem normalizeText_c3Input_ne : normalizeText c3Input ≠ "Hello\nWorld\n\nEnd" := by decide

attribute [irreducible] normalizeChars

/-- No input whatsoever can put a blank line (two adjacent newlines) into the
output of the `fetchPageText` normalization pipeline: the whitespace-around-
newline collapse removes all of them and no later step reintroduces one. -/
theorem noAdjacentNewlines_normalizeText (s : String) :
    NoAdjacentNewlines (normalizeText s).data := by
  rw [data_normalizeText]
  exact noAdjacentNewlines_normalizeChars s.data

/-! ## Concrete documents used in the claim theorems -/

/-- A document whose body element is exactly `<body></body>` and which trips
no other classifier signal. -/
def emptyBodyDoc : Doc := {}

/-- A document scoring exactly 3 in the fetch.ts classifier (React marker +2,
Vue SSR marker +1) with a body of three children, hitting the 0.3 boundary. -/
def c1Doc : Doc := { bodyChildren := 3, hasReactRoot := true, hasServerRendered := true }

/-- A document whose generator meta tag names Gatsby and nothing else. -/
def gatsbyDoc : Doc :=
  { metas := [{ nameAttr := some "generator", content := some "Gatsby" }], bodyChildren := 3 }

/-- A document with 15 anchors in document order; the first two share the
same href, so truncation keeps the duplicate. -/
def summaryDoc15 : Doc :=
  { anchors :=
      [{ href := some "/x1", titleAttr := some "L1" },
       { href := some "/x1", titleAttr := some "L2" },
       { href := some "/x3", titleAttr := some "L3" },
       { href := some "/x4", titleAttr := some "L4" },
       { href := some "/x5", titleAttr := some "L5" },
       { href := some "/x6", titleAttr := some "L6" },
       { href := some "/x7", titleAttr := some "L7" },
       { href := some "/x8", titleAttr := some "L8" },
       { href := some "/x9", titleAttr := some "L9" },
       { href := some "/x10", titleAttr := some "L10" },
       { href := some "/x11", titleAttr := some "L11" },
       { href := some "/x12", titleAttr := some "L12" },
       { href := some "/x13", titleAttr := some "L13" },
       { href := some "/x14", titleAttr := some "L14" },
       { href := some "/x15", titleAttr := some "L15" }],
    bodyChildren := 15 }

/-- A document with an `og:title` meta tag with content `T` and no other meta
or link tag at all. -/
def c8Doc : Doc := { metas := [{ propAttr := some "og:title", content := some "T" }] }

/-! ## Claim theorems -/

/-- C1 (amended): for every document both classifiers keep the confidence in
[0,1]; web-scraper.ts's `detectPageType` has `isDynamic = (confidence >= 0.3)`,
while fetch.ts's legacy `detectPageType` uses the strict comparison
`isDynamic = (confidence > 0.3)`, which differs at confidence exactly 0.3. -/
theorem claim_C1_amended (doc : Doc) :
    0 ≤ (WebScraper.detectPageType doc).confidence ∧
    (WebScraper.detectPageType doc).confidence ≤ 1 ∧
    ((WebScraper.detectPageType doc).isDynamic = true ↔
      3 / 10 ≤ (WebScraper.detectPageType doc).confidence) ∧
    0 ≤ (FetchTs.detectPageType doc).confidence ∧
    (FetchTs.detectPageType doc).confidence ≤ 1 ∧
    ((FetchTs.detectPageType doc).isDynamic = true ↔
      3 / 10 < (FetchTs.detectPageType doc).confidence) := by
  have hW := round2_min_nat (WebScraper.score doc)
  have hF := round2_min_nat (FetchTs.score doc)
  simp only [WebScraper.detectPageType, FetchTs.detectPageType, ge_iff_le, gt_iff_lt,
    decide_eq_true_eq, hW, hF]
  refine ⟨le_min (by positivity) zero_le_one, min_le_right _ _, trivial,
    le_min (by positivity) zero_le_one, min_le_right _ _, trivial⟩

/-- C1 (counterexample): on a document scoring exactly 3, fetch.ts's
`detectPageType` returns confidence 0.3 but `isDynamic = false`, refuting
`isDynamic == (confidence >= 0.3)` as stated for that version. -/
theorem claim_C1_counterexample :
    ¬(((FetchTs.detectPageType c1Doc).isDynamic = true) ↔
      3 / 10 ≤ (FetchTs.detectPageType c1Doc).confidence) := by
  have hs : FetchTs.score c1Doc = 3 := by decide
  rw [ftIsDynamic_iff, ftConfidence_eq, hs]
  norm_num [min_def]

/-- C2 (code bug): with `Gatsby` in the generator meta tag, the framework
field reports `Next.js`, not the matched name, while the hints list records
the actual match: the source's ternary mixes `||` and `?:` so that any truthy
generator match selects the `"Next.js"` branch. -/
theorem claim_C2_codebug :
    (WebScraper.detectPageType gatsbyDoc).framework = some "Next.js" ∧
    "框架: Gatsby" ∈ (WebScraper.detectPageType gatsbyDoc).hints ∧
    (WebScraper.detectPageType gatsbyDoc).framework ≠ some "Gatsby" := by decide

/-- C3 (counterexample): the pipeline output on the claimed input is not the
claimed `Hello\nWorld\n\nEnd` (the blank line does not survive). -/
theorem claim_C3_counterexample : normalizeText c3Input ≠ "Hello\nWorld\n\nEnd" :=
  normalizeText_c3Input_ne

/-- C3 (amended): the pipeline maps the input to `Hello\nWorld\nEnd` — the
whitespace-around-newlines collapse merges every blank-line run into a single
newline before the 3-plus-newline rule could apply — and for every input the
output contains no blank line at all (in particular never a run of blank lines
longer than one). -/
theorem claim_C3_amended :
    normalizeText c3Input = "Hello\nWorld\nEnd" ∧
    ∀ s : String, NoAdjacentNewlines (normalizeText s).data :=
  ⟨normalizeText_c3Input, noAdjacentNewlines_normalizeText⟩

/-- C4 (counterexample): `fetchLinks`, an operation that returns a link list,
does not truncate at all: on a 15-anchor document it returns all 15 links,
not the claimed default cap of 10. -/
theorem claim_C4_counterexample :
    (WebScraper.fetchLinks summaryDoc15 summaryDoc15 (some false)).links.length = 15 ∧
    ¬((WebScraper.fetchLinks summaryDoc15 summaryDoc15 (some false)).links.length ≤ 10) := by
  decide

/-- C4 (amended): `fetchPageSummary` truncates links and images to the
caller-supplied cap (default 10) in document order without deduplication — on
the 15-anchor document a cap of 5 keeps exactly the first five links,
including the duplicated href — while `fetchLinks` preserves document order
and deduplicates nothing but returns the whole list untruncated. -/
theorem claim_C4_amended (doc rdoc : Doc) (url : String) (n : Nat) (h : n ≠ 0) :
    (WebScraper.fetchPageSummary url doc (some n) (some n)).result.links =
      (extractLinks doc).take n ∧
    (WebScraper.fetchPageSummary url doc (some n) (some n)).result.images =
      (extractImages doc).take n ∧
    (WebScraper.fetchPageSummary url doc none none).result.links =
      (extractLinks doc).take 10 ∧
    (WebScraper.fetchLinks doc rdoc (some false)).links = extractLinks doc ∧
    (WebScraper.fetchPageSummary "u" summaryDoc15 (some 5) none).result.links =
      [{ title := "L1", href := "/x1" }, { title := "L2", href := "/x1" },
       { title := "L3", href := "/x3" }, { title := "L4", href := "/x4" },
       { title := "L5", href := "/x5" }] := by
  refine ⟨?_, ?_, ?_, ?_, by decide⟩
  · simp [WebScraper.fetchPageSummary, h]
  · simp [WebScraper.fetchPageSummary, h]
  · simp [WebScraper.fetchPageSummary]
  · simp [WebScraper.fetchLinks, extractLinks]

theorem claim_C4_witness :
    (5 : Nat) ≠ 0 ∧
    (WebScraper.fetchPageSummary "u" summaryDoc15 (some 5) (some 5)).result.links =
      (extractLinks summaryDoc15).take 5 :=
  ⟨by decide, (claim_C4_amended summaryDoc15 summaryDoc15 "u" 5 (by decide)).1⟩

/-- C5 (counterexample): on the empty-body document with no other signal,
fetch.ts's `detectPageType` gives the near-empty-body signal weight 1, so the
confidence is 0.1, below the threshold, and `isDynamic` is false. -/
theorem claim_C5_counterexample :
    (FetchTs.detectPageType emptyBodyDoc).confidence = 1 / 10 ∧
    (FetchTs.detectPageType emptyBodyDoc).isDynamic = false ∧
    ¬(3 / 10 ≤ (FetchTs.detectPageType emptyBodyDoc).confidence) := by
  have hs : FetchTs.score emptyBodyDoc = 1 := by decide
  refine ⟨?_, ?_, ?_⟩
  · rw [ftConfidence_eq, hs]
    norm_num [min_def]
  · have hd : ¬(3 < FetchTs.score emptyBodyDoc) := by
      rw [hs]
      omega
    exact Bool.eq_false_iff.mpr fun h => hd ((ftIsDynamic_iff _).mp h)
  · rw [ftConfidence_eq, hs]
    norm_num [min_def]

/-- C5 (amended): for every document with an empty body and all other
web-scraper classifier signals off, web-scraper.ts's `detectPageType` returns
confidence exactly 0.3 (the +3 near-empty-body signal alone), so `isDynamic`
is true; fetch.ts's legacy version weighs the same signal +1 and stays
static. -/
theorem claim_C5_amended (doc : Doc)
    (h1 : hasMountPoint doc.elemIds = false)
    (h2 : hydrationMatches doc.raw = [])
    (h3 : doc.hasReactRoot = false)
    (h4 : doc.hasReactId = false)
    (h5 : doc.hasServerRendered = false)
    (h6 : doc.ngVersion = none)
    (h7 : findFrameworkMatch (generatorOf doc).data = none)
    (h8 : doc.scripts.length < 3)
    (h9 : scriptTotalLengthOf doc ≤ 50000)
    (h10 : noscriptHintOf doc = false)
    (h11 : doc.bodyChildren = 0) :
    (WebScraper.detectPageType doc).confidence = 3 / 10 ∧
    (WebScraper.detectPageType doc).isDynamic = true := by
  have hs : WebScraper.score doc = 3 := by
    unfold WebScraper.score
    rw [h1, h2, h3, h4, h5, h6, h7]
    simp only [fewTextManyScripts, bigScriptsLittleText, emptyBodySignal, h11]
    have hfw : ¬((trimStr doc.bodyTextRaw).length < 100 ∧ doc.scripts.length ≥ 3) := by omega
    have hbg : ¬(scriptTotalLengthOf doc > 50000 ∧ (trimStr doc.bodyTextRaw).length < 500) := by
      omega
    simp [hfw, hbg, h10]
  refine ⟨?_, ?_⟩
  · rw [wsConfidence_eq, hs]
    norm_num [min_def]
  · rw [wsIsDynamic_iff, hs]

theorem claim_C5_witness :
    (WebScraper.detectPageType emptyBodyDoc).confidence = 3 / 10 ∧
    (WebScraper.detectPageType emptyBodyDoc).isDynamic = true :=
  claim_C5_amended emptyBodyDoc (by decide) (by decide) (by decide) (by decide) (by decide)
    (by decide) (by decide) (by decide) (by decide) (by decide) (by decide)

/-- C6 (confirmed): for `fetchLinks` and `fetchPageText` the effective render
decision is `forceHeadless` when supplied, else the classifier's `isDynamic`
on the statically fetched HTML; the rendered document is extracted exactly
when the decision is true, the static one otherwise, and the render effect
occurs if and only if the decision is true. -/
theorem claim_C6 (sdoc rdoc : Doc) (f : Option Bool) :
    (WebScraper.fetchLinks sdoc rdoc f).usedHeadless =
      f.getD (WebScraper.detectPageType sdoc).isDynamic ∧
    (WebScraper.fetchLinks sdoc rdoc f).links =
      extractLinks (if f.getD (WebScraper.detectPageType sdoc).isDynamic then rdoc else sdoc) ∧
    (Effect.render ∈ (WebScraper.fetchLinks sdoc rdoc f).effects ↔
      f.getD (WebScraper.detectPageType sdoc).isDynamic = true) ∧
    (WebScraper.fetchPageText sdoc rdoc f).usedHeadless =
      f.getD (WebScraper.detectPageType sdoc).isDynamic ∧
    (WebScraper.fetchPageText sdoc rdoc f).text =
      normalizeText
        (if f.getD (WebScraper.detectPageType sdoc).isDynamic then rdoc else sdoc).bodyTextRaw ∧
    (Effect.render ∈ (WebScraper.fetchPageText sdoc rdoc f).effects ↔
      f.getD (WebScraper.detectPageType sdoc).isDynamic = true) := by
  cases hb : f.getD (WebScraper.detectPageType sdoc).isDynamic with
  | false => simp [WebScraper.fetchLinks, WebScraper.fetchPageText, hb]
  | true => simp [WebScraper.fetchLinks, WebScraper.fetchPageText, hb]

/-- C7 (confirmed): `fetchPageSummary` and `fetchPageMetadata` perform exactly
one static fetch and never trigger rendering, for every URL and option
combination. -/
theorem claim_C7 (url : String) (doc : Doc) (lc ic : Option Nat) :
    (WebScraper.fetchPageSummary url doc lc ic).effects = [Effect.fetchStatic] ∧
    Effect.render ∉ (WebScraper.fetchPageSummary url doc lc ic).effects ∧
    (WebScraper.fetchPageMetadata doc).effects = [Effect.fetchStatic] ∧
    Effect.render ∉ (WebScraper.fetchPageMetadata doc).effects := by
  refine ⟨rfl, ?_, rfl, ?_⟩ <;> simp [WebScraper.fetchPageSummary, WebScraper.fetchPageMetadata]

/-- C8 (confirmed): metadata fields are absent (`none`), never the empty
string, when their source tag is missing; on the document with only
`<meta property="og:title" content="T">`, `og_title` is `T` and every other
optional field is absent. -/
theorem claim_C8 (doc : Doc) :
    ((doc.metas.find? fun m => m.nameAttr == some "description") = none →
      (WebScraper.fetchPageMetadata doc).result.description = none) ∧
    ((doc.metas.find? fun m => m.propAttr == some "og:title") = none →
      (WebScraper.fetchPageMetadata doc).result.og_title = none) ∧
    ((doc.linkTags.find? fun lt => lt.rel == some "canonical") = none →
      (WebScraper.fetchPageMetadata doc).result.canonical = none) ∧
    (WebScraper.fetchPageMetadata c8Doc).result.og_title = some "T" ∧
    (WebScraper.fetchPageMetadata c8Doc).result.description = none ∧
    (WebScraper.fetchPageMetadata c8Doc).result.keywords = none ∧
    (WebScraper.fetchPageMetadata c8Doc).result.author = none ∧
    (WebScraper.fetchPageMetadata c8Doc).result.canonical = none ∧
    (WebScraper.fetchPageMetadata c8Doc).result.robots = none ∧
    (WebScraper.fetchPageMetadata c8Doc).result.og_description = none ∧
    (WebScraper.fetchPageMetadata c8Doc).result.og_image = none ∧
    (WebScraper.fetchPageMetadata c8Doc).result.og_url = none ∧
    (WebScraper.fetchPageMetadata c8Doc).result.og_type = none ∧
    (WebScraper.fetchPageMetadata c8Doc).result.og_site_name = none ∧
    (WebScraper.fetchPageMetadata c8Doc).result.twitter_card = none ∧
    (WebScraper.fetchPageMetadata c8Doc).result.twitter_image = none ∧
    (WebScraper.fetchPageMetadata c8Doc).result.next = none ∧
    (WebScraper.fetchPageMetadata c8Doc).result.prev = none ∧
    (WebScraper.fetchPageMetadata c8Doc).result.alternate = none := by
  refine ⟨fun h => ?_, fun h => ?_, fun h => ?_, ?_⟩
  · simp [WebScraper.fetchPageMetadata, getMetaByName, h, jsFalsy]
  · simp [WebScraper.fetchPageMetadata, getMetaByProperty, h, jsFalsy]
  · simp [WebScraper.fetchPageMetadata, getLinkRel, h, jsFalsy]
  · decide

theorem claim_C8_witness :
    (WebScraper.fetchPageMetadata c8Doc).result.description = none ∧
    (WebScraper.fetchPageMetadata c8Doc).result.og_title = some "T" :=
  ⟨(claim_C8 c8Doc).1 (by decide), (claim_C8 c8Doc).2.2.2.1⟩

/-- C9 (code bug): `getBrowser` has no single-flight guard — the null check
and the launch are separated by an await — so the interleaving where both
first-time callers pass the check before either launch completes produces two
process launches, while a serial schedule produces one. -/
theorem claim_C9_codebug :
    (runSched [false, true, false, true] {}).launches = 2 ∧
    (runSched [false, false, true, true] {}).launches = 1 := by decide

/-- C10 (confirmed): an explicit link or image cap of 0 is falsy, so
`fetchPageSummary` behaves exactly as with no cap: the default cap 10 applies
and at most 10 entries are returned. -/
theorem claim_C10 (url : String) (doc : Doc) :
    (WebScraper.fetchPageSummary url doc (some 0) (some 0)).result.links =
      (extractLinks doc).take 10 ∧
    (WebScraper.fetchPageSummary url doc (some 0) (some 0)).result.images =
      (extractImages doc).take 10 ∧
    (WebScraper.fetchPageSummary url doc (some 0) (some 0)).result =
      (WebScraper.fetchPageSummary url doc none none).result ∧
    (WebScraper.fetchPageSummary url doc (some 0) (some 0)).result.links.length ≤ 10 := by
  refine ⟨by simp [WebScraper.fetchPageSummary], by simp [WebScraper.fetchPageSummary],
    by simp [WebScraper.fetchPageSummary], ?_⟩
  simp only [WebScraper.fetchPageSummary]
  simp [List.length_take_le]

end WebFetch
